import Mathlib

/-!
# Verification of the fintrade-frontend data-fetch/normalize contract

Shallow embedding of the normalization and fetch-client code of
`src/App.jsx` (the `num` coercer, `normalizePortfolioRow`, and the
`useApi` hook), together with theorems settling the specification
claims about them.

Modelling conventions:
* A JavaScript number is modelled by `JSNumber`: either a finite value
  carried as an exact rational, or `nan`, `posInf`, `negInf`.  Mantissa
  rounding of IEEE doubles is idealized away (finite values are exact),
  but overflow of decimal-to-double conversion to ±Infinity is modelled,
  with the exact IEEE round-to-nearest-even overflow threshold
  2^1024 - 2^970.
* A raw field value (`JSValue`) is absent (`null`/`undefined`), a
  number, or a string — the shapes the specification quantifies over.
* A raw backend row is a total map from field names to `JSValue`;
  an absent property reads as `undefined`, exactly as in JavaScript.
-/

/-- A JavaScript number: a finite double (idealized as an exact
rational) or one of the non-finite values `NaN`, `+Infinity`,
`-Infinity`. -/
inductive JSNumber where
  | finite (q : ℚ)
  | nan
  | posInf
  | negInf
deriving DecidableEq, Repr

/-- A raw JavaScript field value as the spec's Raw Field: absent
(`null` or `undefined`), a number, or a string. -/
inductive JSValue where
  | null
  | undefined
  | number (n : JSNumber)
  | str (s : String)
deriving DecidableEq, Repr

namespace JSNumber

/-- JavaScript `isFinite` on an actual number. -/
def isFiniteNum : JSNumber → Bool
  | .finite _ => true
  | _ => false

/-- Is the value one of the two infinities? -/
def isInf : JSNumber → Bool
  | .posInf => true
  | .negInf => true
  | _ => false

end JSNumber

namespace JSValue

/-- JavaScript truthiness restricted to the modelled values:
`null`/`undefined` are falsy, a number is falsy iff it is `0` or `NaN`,
a string is falsy iff it is empty. -/
def truthy : JSValue → Bool
  | .null => false
  | .undefined => false
  | .number (.finite q) => q ≠ 0
  | .number .nan => false
  | .number .posInf => true
  | .number .negInf => true
  | .str s => s ≠ ""

/-- Is the value `null` or `undefined` (the values skipped by `??`)? -/
def nullish : JSValue → Bool
  | .null => true
  | .undefined => true
  | _ => false

/-- Is the value a string? -/
def isStr : JSValue → Bool
  | .str _ => true
  | _ => false

end JSValue

/-- JavaScript `a ?? b`: `b` when `a` is `null` or `undefined`, else `a`. -/
def jsCoalesce (a b : JSValue) : JSValue :=
  if a.nullish then b else a

/-- JavaScript `a || b`: `b` when `a` is falsy, else `a`. -/
def jsOr (a b : JSValue) : JSValue :=
  if a.truthy then a else b

/-- The characters kept by the source's cleaning regex
`/[^\d.\-\+eE]/g`: ASCII digits, `.`, `-`, `+`, `e`, `E`. -/
def keptChar (c : Char) : Bool :=
  c.isDigit || c = '.' || c = '-' || c = '+' || c = 'e' || c = 'E'

/-- Cleaning, `String(v).replace(/[^\d.\-\+eE]/g, '')`, on the
character list of a string: drop every character the regex class
excludes. -/
def cleanChars (s : String) : List Char :=
  s.data.filter keptChar

/-- Numeric value of a digit character. -/
def digVal (c : Char) : ℕ :=
  c.toNat - '0'.toNat

/-- Value of a digit string read in base 10. -/
def natOfDigits (ds : List Char) : ℕ :=
  ds.foldl (fun a c => a * 10 + digVal c) 0

/-- Strip one optional leading sign; returns whether the sign was `-`
and the remaining characters. -/
def stripSign : List Char → Bool × List Char
  | '-' :: r => (true, r)
  | '+' :: r => (false, r)
  | cs => (false, cs)

/-- Parse the unsigned mantissa of a JavaScript `StrDecimalLiteral`:
`Digits ['.' Digits?] | '.' Digits`, requiring at least one digit.
Returns the value in scaled form — a pair `(mag, k)` denoting
`mag / 10^k` — together with the unconsumed characters. -/
def parseMantissa (cs : List Char) : Option (ℕ × ℕ × List Char) :=
  let ip := cs.takeWhile Char.isDigit
  let r1 := cs.dropWhile Char.isDigit
  match r1 with
  | '.' :: r2 =>
    let fp := r2.takeWhile Char.isDigit
    let r3 := r2.dropWhile Char.isDigit
    if ip.isEmpty && fp.isEmpty then none
    else some (natOfDigits ip * 10 ^ fp.length + natOfDigits fp, fp.length, r3)
  | _ =>
    if ip.isEmpty then none else some (natOfDigits ip, 0, r1)

/-- Parse a whole (nonempty) character list as a JavaScript decimal
literal `[+-]? Mantissa ([eE] [+-]? Digits)?`; `none` when the string
does not match the grammar exactly (JavaScript `Number` yields `NaN`).
The result `(neg, mag, k)` denotes the exact value `±mag / 10^k`. -/
def jsParseDecimal (cs : List Char) : Option (Bool × ℕ × ℕ) :=
  let (neg, cs1) := stripSign cs
  match parseMantissa cs1 with
  | none => none
  | some (mag, k, r1) =>
    match r1 with
    | [] => some (neg, mag, k)
    | c :: r2 =>
      if c = 'e' || c = 'E' then
        let (eneg, r3) := stripSign r2
        let ed := r3.takeWhile Char.isDigit
        let r4 := r3.dropWhile Char.isDigit
        if ed.isEmpty || !r4.isEmpty then none
        else if eneg then some (neg, mag, k + natOfDigits ed)
        else some (neg, mag * 10 ^ natOfDigits ed, k)
      else none

/-- The IEEE-754 double overflow threshold: an exact decimal value of
magnitude at least `2^1024 - 2^970` converts (round to nearest, ties to
even) to ±Infinity. -/
def overflowNat : ℕ := 2 ^ 1024 - 2 ^ 970

/-- Does the scaled value `mag / 10^k` overflow the double range? -/
def scaledOverflow (mag k : ℕ) : Bool :=
  mag ≥ overflowNat * 10 ^ k

/-- The exact rational denoted by a signed scaled value. -/
def scaledToRat (neg : Bool) (mag k : ℕ) : ℚ :=
  mkRat (if neg then -(mag : ℤ) else (mag : ℤ)) (10 ^ k)

/-- JavaScript `Number(s)` on a cleaned character list: the empty
string is `0`; otherwise parse as a decimal literal, `NaN` on failure,
and classify overflow to ±Infinity. -/
def jsStringToNumber (cs : List Char) : JSNumber :=
  if cs.isEmpty then .finite 0
  else
    match jsParseDecimal cs with
    | none => .nan
    | some (neg, mag, k) =>
      if scaledOverflow mag k then (if neg then .negInf else .posInf)
      else .finite (scaledToRat neg mag k)

/-- Map `NaN` to `0`, the source's `isNaN(parsed) ? 0 : parsed`. -/
def nanToZero : JSNumber → JSNumber
  | .nan => .finite 0
  | r => r

/-- The source's `num` coercer, transcribed from `src/App.jsx`:

```js
const num = (v) => {
  if (v === null || v === undefined || v === '') return 0;
  if (typeof v === 'number') return isFinite(v) ? v : 0;
  const cleaned = String(v).replace(/[^\d.\-\+eE]/g, '');
  const parsed = Number(cleaned);
  return isNaN(parsed) ? 0 : parsed;
};
``` -/
def num (v : JSValue) : JSNumber :=
  match v with
  | .null => .finite 0
  | .undefined => .finite 0
  | .number n => if n.isFiniteNum then n else .finite 0
  | .str s =>
    if s = "" then .finite 0
    else nanToZero (jsStringToNumber (cleanChars s))

set_option maxRecDepth 10000

example : num (.str "₹1,234.56") = .finite (mkRat 123456 100) := by decide
example : num (.str "9.9 %") = .finite (mkRat 99 10) := by decide
example : num (.str "-") = .finite 0 := by decide
example : num (.str "") = .finite 0 := by decide
example : num .null = .finite 0 := by decide
example : num (.str "abc") = .finite 0 := by decide
example : num (.str "1e3") = .finite 1000 := by decide
example : num (.str "+.5") = .finite (mkRat 1 2) := by decide
example : num (.str "1.") = .finite 1 := by decide
example : num (.str "1e309") = .posInf := by decide
example : num (.str "-1e309") = .negInf := by decide
example : num (.str "1e-2") = .finite (mkRat 1 100) := by decide
example : num (.number .nan) = .finite 0 := by decide
example : num (.str "3-4") = .finite 0 := by decide
example : num (.str "1.2.3") = .finite 0 := by decide
example : num (.str "0x10") = .finite 10 := by decide

/-- JavaScript `Math.round` lifted to `JSNumber`: on a finite value it
is `⌊x + 1/2⌋` (halves round up, also for negatives); `NaN` and the
infinities are fixed points.  For a rational `n/d` in lowest terms,
`⌊n/d + 1/2⌋ = (2n + d) fdiv 2d`. -/
def jsRound : JSNumber → JSNumber
  | .finite q => .finite (mkRat ((2 * q.num + (q.den : ℤ)).fdiv (2 * (q.den : ℤ))) 1)
  | .nan => .nan
  | .posInf => .posInf
  | .negInf => .negInf

example : jsRound (.finite (mkRat 5 2)) = .finite 3 := by decide
example : jsRound (.finite (mkRat (-5) 2)) = .finite (-2) := by decide
example : jsRound (.finite (mkRat 7 5)) = .finite 1 := by decide
example : jsRound (.finite (mkRat (-3) 2)) = .finite (-1) := by decide

/-- A raw backend row: a total map from property names to raw values.
Reading an absent property yields `undefined`, as in JavaScript; the
empty mapping is `fun _ => JSValue.undefined`. -/
def RawRow : Type := String → JSValue

/-- The empty mapping (an object with no own properties). -/
def emptyRow : RawRow := fun _ => .undefined

/-- The canonical Portfolio Row shape produced by the row normalizer.
The numeric fields are JavaScript numbers by construction (they are
results of `num`); `symbol` and `company` hold whatever value the `||`
chains select, which the code does not coerce to a string. -/
structure PortfolioRow where
  symbol : JSValue
  company : JSValue
  score : JSNumber
  price : JSNumber
  stop_loss : JSNumber
  percentage_allocation : JSNumber
  number_of_shares : JSNumber
  risk : JSNumber
  investment_amount : JSNumber
deriving DecidableEq, Repr

/-- The source's `normalizePortfolioRow`, transcribed from
`src/App.jsx`:

```js
const normalizePortfolioRow = (s) => {
  const price =
    s.price ?? s.current_price ?? s.entry_price ?? s.avg_price ?? s.ltp ?? 0;
  const stopLoss =
    s.stop_loss ?? s.stoploss ?? s.sl ?? s.stop ?? 0;
  const alloc =
    s.percentage_allocation ?? s.allocation_pct ?? s.alloc_percent ?? s.allocation ?? 0;
  const shares =
    s.number_of_shares ?? s.shares ?? s.qty ?? s.quantity ?? 0;
  const risk =
    s.risk ?? s.risk_amount ?? s.max_risk ?? 0;

  return {
    symbol: s.symbol || s.ticker || '',
    company: s.company || s.name || '',
    score: num(s.score),
    price: num(price),
    stop_loss: num(stopLoss),
    percentage_allocation: num(alloc),
    number_of_shares: Math.round(num(shares)),
    risk: num(risk),
    investment_amount: num(s.investment_amount)
  };
};
``` -/
def normalizePortfolioRow (s : RawRow) : PortfolioRow :=
  let price :=
    jsCoalesce (s "price") (jsCoalesce (s "current_price") (jsCoalesce (s "entry_price")
      (jsCoalesce (s "avg_price") (jsCoalesce (s "ltp") (.number (.finite 0))))))
  let stopLoss :=
    jsCoalesce (s "stop_loss") (jsCoalesce (s "stoploss") (jsCoalesce (s "sl")
      (jsCoalesce (s "stop") (.number (.finite 0)))))
  let alloc :=
    jsCoalesce (s "percentage_allocation") (jsCoalesce (s "allocation_pct")
      (jsCoalesce (s "alloc_percent") (jsCoalesce (s "allocation") (.number (.finite 0)))))
  let shares :=
    jsCoalesce (s "number_of_shares") (jsCoalesce (s "shares") (jsCoalesce (s "qty")
      (jsCoalesce (s "quantity") (.number (.finite 0)))))
  let risk :=
    jsCoalesce (s "risk") (jsCoalesce (s "risk_amount") (jsCoalesce (s "max_risk")
      (.number (.finite 0))))
  { symbol := jsOr (s "symbol") (jsOr (s "ticker") (.str ""))
    company := jsOr (s "company") (jsOr (s "name") (.str ""))
    score := num (s "score")
    price := num price
    stop_loss := num stopLoss
    percentage_allocation := num alloc
    number_of_shares := jsRound (num shares)
    risk := num risk
    investment_amount := num (s "investment_amount") }

example :
    (normalizePortfolioRow emptyRow).price = .finite 0 ∧
    (normalizePortfolioRow emptyRow).symbol = .str "" := by
  constructor <;> rfl

/-- A JSON value, the payload shape carried by the response envelope's
`data` field. -/
inductive Json where
  | null
  | bool (b : Bool)
  | jnum (q : ℚ)
  | jstr (s : String)
  | arr (xs : List Json)
  | obj (kvs : List (String × Json))

/-- The `{success, data, error}` response envelope after successful
JSON parsing.  `error := none` models an absent `error` property;
`error := some ""` models a present but empty message. -/
structure Envelope where
  success : Bool
  data : Json
  error : Option String

/-- One observable outcome of the awaited transport
(`fetch` + `response.json()`): either some stage threw/rejected with a
message (network failure or a non-JSON body), or a parsed envelope. -/
inductive TransportResult where
  | throws (msg : String)
  | envelope (e : Envelope)

/-- The fallback text of `result.error || 'An unknown error occurred'`. -/
def unknownErrorMsg : String := "An unknown error occurred"

/-- The message of the `Error` thrown on a falsy `success`:
`result.error || 'An unknown error occurred'`.  `||` takes the
fallback whenever `result.error` is falsy, i.e. absent or the empty
string. -/
def envelopeErrMsg (e : Envelope) : String :=
  match e.error with
  | some s => if s = "" then unknownErrorMsg else s
  | none => unknownErrorMsg

/-- The `useApi` hook's state triple: `data`/`loading`/`error`, with
`none` modelling JavaScript `null`. -/
structure ApiState where
  data : Option Json
  loading : Bool
  error : Option String

/-- The state before any `execute` call:
`useState(null)`, `useState(false)`, `useState(null)`. -/
def initialApiState : ApiState :=
  { data := none, loading := false, error := none }

/-- The value an `execute()` call resolves to: the promise never
rejects, returning `{success:true, data}` or `{success:false, error}`. -/
inductive ExecResult where
  | ok (data : Json)
  | fail (error : String)

/-- The synchronous prefix of `execute`, before the first `await`:
`setLoading(true); setError(null)`. -/
def beginExec (st : ApiState) : ApiState :=
  { st with loading := true, error := none }

/-- The continuation of `execute` after the awaited transport settles,
transcribed from `src/App.jsx`:

```js
try {
  ...
  const response = await fetch(`...`, fetchOptions);
  const result = await response.json();
  if (!result.success) throw new Error(result.error || 'An unknown error occurred');
  setData(result.data);
  return { success: true, data: result.data };
} catch (err) {
  setError(err.message);
  return { success: false, error: err.message };
} finally {
  setLoading(false);
}
``` -/
def settleExec (st : ApiState) (t : TransportResult) : ApiState × ExecResult :=
  match t with
  | .throws msg =>
    ({ st with loading := false, error := some msg }, .fail msg)
  | .envelope e =>
    if e.success then
      ({ st with data := some e.data, loading := false }, .ok e.data)
    else
      let msg := envelopeErrMsg e
      ({ st with loading := false, error := some msg }, .fail msg)

/-- One whole `execute` call with no interleaving: begin, await the
transport, settle. -/
def executeRun (st : ApiState) (t : TransportResult) : ApiState × ExecResult :=
  settleExec (beginExec st) t

/-- Two overlapping `execute` calls on one hook instance, settling in
the opposite order of invocation: call 1 begins, call 2 begins, call
2's transport settles first, then call 1's.  Returns the state after
the second settlement and the final state. -/
def staleOverwriteRun (st : ApiState) (t1 t2 : TransportResult) :
    ApiState × ApiState :=
  let pending := beginExec (beginExec st)
  let afterSecond := (settleExec pending t2).1
  let afterFirst := (settleExec afterSecond t1).1
  (afterSecond, afterFirst)

/-- The character class as §4.1 of the spec words it: "a digit, `.`,
`-`, `+`, or exponent marker (`e`/`E`)". -/
def specKeptChar (c : Char) : Bool :=
  c.isDigit || decide (c ∈ ['.', '-', '+', 'e', 'E'])

theorem keptChar_eq_specKeptChar (c : Char) : keptChar c = specKeptChar c := by
  simp [keptChar, specKeptChar, List.mem_cons, Bool.decide_or, Bool.or_assoc]

/-- The Numeric Normalizer as §4.1 of the spec describes it, written
from the spec's sentence: absent inputs give 0; a number is returned
if finite, else 0; a string is stripped to the spec's character class,
parsed as a floating-point number, with 0 when the parse is not a
number. -/
def numSpec (v : JSValue) : JSNumber :=
  match v with
  | .null => .finite 0
  | .undefined => .finite 0
  | .number n => if n.isFiniteNum then n else .finite 0
  | .str s =>
    if s = "" then .finite 0
    else
      match jsStringToNumber (s.data.filter specKeptChar) with
      | .nan => .finite 0
      | r => r

/-- C1 counterexample: on the string `"1e309"` the cleaning keeps the
whole string, `Number("1e309")` overflows the double range to
`Infinity`, and `isNaN(Infinity)` is false, so `num` returns a
non-finite number, contradicting the claimed always-finite guarantee. -/
theorem num_overflow_counterexample :
    num (JSValue.str "1e309") = JSNumber.posInf ∧
    (num (JSValue.str "1e309")).isFiniteNum = false := by
  constructor <;> decide

/-- C1 (amended): for every input value the Numeric Normalizer is
total and never yields `NaN`; its result is finite for every absent or
numeric input and for every string input except those whose cleaned
form parses to a value beyond the double overflow threshold, in which
case it returns an infinity. -/
theorem num_never_nan_and_finite_unless_overflow (v : JSValue) :
    num v ≠ JSNumber.nan ∧
    ((num v).isFiniteNum = false →
      ∃ s, v = JSValue.str s ∧ num v = jsStringToNumber (cleanChars s) ∧
        (jsStringToNumber (cleanChars s)).isInf = true) := by
  cases v with
  | null => exact ⟨by simp [num], by simp [num, JSNumber.isFiniteNum]⟩
  | undefined => exact ⟨by simp [num], by simp [num, JSNumber.isFiniteNum]⟩
  | number n =>
    cases n <;> simp [num, JSNumber.isFiniteNum]
  | str s =>
    by_cases h : s = ""
    · subst h
      exact ⟨by simp [num], by simp [num, JSNumber.isFiniteNum]⟩
    · simp only [num, h, if_false]
      cases hx : jsStringToNumber (cleanChars s) with
      | finite q => simp [nanToZero, JSNumber.isFiniteNum]
      | nan => simp [nanToZero, JSNumber.isFiniteNum]
      | posInf =>
        refine ⟨by simp [nanToZero], fun _ => ⟨s, rfl, ?_, ?_⟩⟩ <;>
          simp [nanToZero, hx, JSNumber.isInf]
      | negInf =>
        refine ⟨by simp [nanToZero], fun _ => ⟨s, rfl, ?_, ?_⟩⟩ <;>
          simp [nanToZero, hx, JSNumber.isInf]

/-- Witness for C1 (amended) at the concrete overflowing input
`"1e309"`. -/
theorem num_never_nan_and_finite_unless_overflow_witness :
    num (JSValue.str "1e309") ≠ JSNumber.nan ∧
    (∃ s, JSValue.str "1e309" = JSValue.str s ∧
      num (JSValue.str "1e309") = jsStringToNumber (cleanChars s) ∧
      (jsStringToNumber (cleanChars s)).isInf = true) :=
  ⟨(num_never_nan_and_finite_unless_overflow (JSValue.str "1e309")).1,
   (num_never_nan_and_finite_unless_overflow (JSValue.str "1e309")).2 (by decide)⟩

/-- C2: the Numeric Normalizer computes exactly the function the spec
describes — 0 for `null`/`undefined`/empty string, a finite number
unchanged (0 for a non-finite number), and for a string the parse of
the stripped remainder with 0 when the parse is not a number. -/
theorem num_eq_numSpec (v : JSValue) : num v = numSpec v := by
  cases v with
  | null => rfl
  | undefined => rfl
  | number n => rfl
  | str s =>
    have hf : s.data.filter keptChar = s.data.filter specKeptChar :=
      List.filter_congr (fun c _ => keptChar_eq_specKeptChar c)
    by_cases h : s = ""
    · subst h; rfl
    · simp only [num, numSpec, h, if_false, cleanChars, hf]
      cases jsStringToNumber (s.data.filter specKeptChar) <;> rfl

/-- A pure decoration character: one the cleaning regex removes. -/
def decorChar (c : Char) : Bool := !keptChar c

theorem num_decorated_general (pre core post : String) (neg : Bool) (mag k : ℕ)
    (hpre : pre.data.all decorChar = true)
    (hpost : post.data.all decorChar = true)
    (hcore : core.data.all keptChar = true)
    (hparse : jsParseDecimal core.data = some (neg, mag, k))
    (hov : scaledOverflow mag k = false) :
    num (JSValue.str (pre ++ core ++ post)) = JSNumber.finite (scaledToRat neg mag k) := by
  have hpre' : ∀ c ∈ pre.data, ¬ keptChar c = true := by
    intro c hc
    have := List.all_eq_true.mp hpre c hc
    simp [decorChar] at this
    simp [this]
  have hpost' : ∀ c ∈ post.data, ¬ keptChar c = true := by
    intro c hc
    have := List.all_eq_true.mp hpost c hc
    simp [decorChar] at this
    simp [this]
  have hcore' : ∀ c ∈ core.data, keptChar c = true := List.all_eq_true.mp hcore
  have hcore_ne : core.data ≠ [] := by
    intro h
    rw [h] at hparse
    have : (none : Option (Bool × ℕ × ℕ)) = some (neg, mag, k) := hparse
    exact Option.noConfusion this
  have hw : (pre ++ core ++ post).data = pre.data ++ core.data ++ post.data := rfl
  have hne : ¬ (pre ++ core ++ post) = "" := by
    intro h
    have hdata : (pre ++ core ++ post).data = [] := by rw [h]
    rw [hw] at hdata
    rcases List.append_eq_nil.mp hdata with ⟨h1, _⟩
    rcases List.append_eq_nil.mp h1 with ⟨_, h2⟩
    exact hcore_ne h2
  have hclean : cleanChars (pre ++ core ++ post) = core.data := by
    unfold cleanChars
    rw [hw, List.filter_append, List.filter_append,
      List.filter_eq_nil_iff.mpr hpre', List.filter_eq_nil_iff.mpr hpost',
      List.filter_eq_self.mpr hcore']
    simp
  simp only [num, hne, if_false, hclean]
  rcases hcd : core.data with _ | ⟨a, l⟩
  · exact absurd hcd hcore_ne
  · rw [hcd] at hparse
    simp [jsStringToNumber, hparse, hov, nanToZero]

/-- C3: a string consisting of one numeric substring surrounded by
decoration characters (characters the cleaning removes) is normalized
to that substring's numeric value, provided the value fits the double
range; in particular `"₹1,234.56"` gives `1234.56`, `"9.9 %"` gives
`9.9`, and `"-"` alone gives `0`. -/
theorem num_decorated_value :
    (∀ pre core post neg mag k,
      pre.data.all decorChar = true →
      post.data.all decorChar = true →
      core.data.all keptChar = true →
      jsParseDecimal core.data = some (neg, mag, k) →
      scaledOverflow mag k = false →
      num (JSValue.str (pre ++ core ++ post)) = JSNumber.finite (scaledToRat neg mag k)) ∧
    num (JSValue.str "₹1,234.56") = JSNumber.finite (mkRat 123456 100) ∧
    num (JSValue.str "9.9 %") = JSNumber.finite (mkRat 99 10) ∧
    num (JSValue.str "-") = JSNumber.finite 0 :=
  ⟨fun pre core post neg mag k h1 h2 h3 h4 h5 =>
      num_decorated_general pre core post neg mag k h1 h2 h3 h4 h5,
   by decide, by decide, by decide⟩

/-- Witness for C3 at the concrete decorated input `"$42 off"`. -/
theorem num_decorated_value_witness :
    num (JSValue.str "$42 off") = JSNumber.finite (scaledToRat false 42 0) :=
  num_decorated_value.1 "$" "42" " off" false 42 0
    (by decide) (by decide) (by decide) (by decide) (by decide)

/-- The alias probe as claim C4 words it: take the first value that is
present, i.e. not `undefined`, and otherwise the field-specific
default. -/
def firstDefined (vs : List JSValue) (dflt : JSValue) : JSValue :=
  match vs with
  | [] => dflt
  | v :: rest => if v = .undefined then firstDefined rest dflt else v

/-- The Row Normalizer as claim C4 words it: every canonical field
probes its alias list for the first non-`undefined` value; numeric
candidates pass through `num`; `number_of_shares` is rounded. -/
def normalizeRowClaimC4 (s : RawRow) : PortfolioRow :=
  { symbol := firstDefined [s "symbol", s "ticker"] (.str "")
    company := firstDefined [s "company", s "name"] (.str "")
    score := num (s "score")
    price := num (firstDefined
      [s "price", s "current_price", s "entry_price", s "avg_price", s "ltp"]
      (.number (.finite 0)))
    stop_loss := num (firstDefined
      [s "stop_loss", s "stoploss", s "sl", s "stop"] (.number (.finite 0)))
    percentage_allocation := num (firstDefined
      [s "percentage_allocation", s "allocation_pct", s "alloc_percent", s "allocation"]
      (.number (.finite 0)))
    number_of_shares := jsRound (num (firstDefined
      [s "number_of_shares", s "shares", s "qty", s "quantity"] (.number (.finite 0))))
    risk := num (firstDefined [s "risk", s "risk_amount", s "max_risk"]
      (.number (.finite 0)))
    investment_amount := num (s "investment_amount") }

/-- A row whose `price` is an explicit `null` and whose `ltp` is `5`:
the `??` chain skips the `null`, while taking "the first value that is
present (not undefined)" would stop at the `null`. -/
def nullPriceRow : RawRow := fun k =>
  if k = "price" then .null
  else if k = "ltp" then .number (.finite 5)
  else .undefined

/-- C4 counterexample: on `nullPriceRow` the code's output (price 5,
from `ltp`) differs from the claimed first-present-value probe (which
selects the `null` and normalizes it to price 0). -/
theorem normalizeRow_claimC4_counterexample :
    normalizePortfolioRow nullPriceRow ≠ normalizeRowClaimC4 nullPriceRow ∧
    (normalizePortfolioRow nullPriceRow).price = JSNumber.finite 5 ∧
    (normalizeRowClaimC4 nullPriceRow).price = JSNumber.finite 0 := by
  refine ⟨?_, by decide, by decide⟩
  intro h
  have := congrArg PortfolioRow.price h
  revert this
  decide

/-- The alias probe the code implements for the numeric fields: `??`,
which skips `null` as well as `undefined`. -/
def firstNonNullish (vs : List JSValue) (dflt : JSValue) : JSValue :=
  match vs with
  | [] => dflt
  | v :: rest => if v.nullish then firstNonNullish rest dflt else v

/-- The alias probe the code implements for `symbol` and `company`:
`||`, which skips every falsy value. -/
def firstTruthy (vs : List JSValue) (dflt : JSValue) : JSValue :=
  match vs with
  | [] => dflt
  | v :: rest => if v.truthy then v else firstTruthy rest dflt

/-- The Row Normalizer with the amended probe semantics: numeric alias
chains take the first non-nullish value, the string fields take the
first truthy value. -/
def normalizeRowAmended (s : RawRow) : PortfolioRow :=
  { symbol := firstTruthy [s "symbol", s "ticker"] (.str "")
    company := firstTruthy [s "company", s "name"] (.str "")
    score := num (s "score")
    price := num (firstNonNullish
      [s "price", s "current_price", s "entry_price", s "avg_price", s "ltp"]
      (.number (.finite 0)))
    stop_loss := num (firstNonNullish
      [s "stop_loss", s "stoploss", s "sl", s "stop"] (.number (.finite 0)))
    percentage_allocation := num (firstNonNullish
      [s "percentage_allocation", s "allocation_pct", s "alloc_percent", s "allocation"]
      (.number (.finite 0)))
    number_of_shares := jsRound (num (firstNonNullish
      [s "number_of_shares", s "shares", s "qty", s "quantity"] (.number (.finite 0))))
    risk := num (firstNonNullish [s "risk", s "risk_amount", s "max_risk"]
      (.number (.finite 0)))
    investment_amount := num (s "investment_amount") }

/-- C4 (amended): for every input mapping, `normalizePortfolioRow`
probes each numeric field's ordered alias list for the first value
that is neither `null` nor `undefined` (so `price` still wins over
`current_price` when both carry values, and `ltp` is used when it is
the only one), and probes `symbol`/`company` for the first truthy
value; defaults are 0 and the empty string, every numeric candidate
passes through `num`, and `number_of_shares` is rounded. -/
theorem normalizeRow_eq_amended (s : RawRow) :
    normalizePortfolioRow s = normalizeRowAmended s := by
  simp [normalizePortfolioRow, normalizeRowAmended, firstNonNullish, firstTruthy,
    jsCoalesce, jsOr]

/-- Is the value a string, or else falsy (so that an `||` chain passes
over it rather than returning it)? -/
def strOrFalsy (v : JSValue) : Bool := v.isStr || !v.truthy

/-- A row supplying a truthy number under `symbol`: the `||` chain
returns it unchanged, so the output's `symbol` is not a string. -/
def numericSymbolRow : RawRow := fun k =>
  if k = "symbol" then .number (.finite 42) else .undefined

/-- C5 counterexample: on a mapping with a numeric `symbol`, the
output's `symbol` field is that number, not a string, refuting the
claim that `symbol` always has string type for arbitrarily malformed
mappings. -/
theorem normalizeRow_symbol_type_counterexample :
    (normalizePortfolioRow numericSymbolRow).symbol = JSValue.number (JSNumber.finite 42) ∧
    (normalizePortfolioRow numericSymbolRow).symbol.isStr = false := by
  constructor <;> decide

/-- C5 (amended): `normalizePortfolioRow` is total — every canonical
field of its output is defined, the numeric fields are JavaScript
numbers by construction — and `symbol` and `company` are strings for
every mapping (including the empty one) whose `symbol`/`ticker` and
`company`/`name` values are each a string or falsy; a truthy
non-string value supplied there is passed through unchanged. -/
theorem normalizeRow_string_fields (s : RawRow)
    (h1 : strOrFalsy (s "symbol") = true) (h2 : strOrFalsy (s "ticker") = true)
    (h3 : strOrFalsy (s "company") = true) (h4 : strOrFalsy (s "name") = true) :
    (normalizePortfolioRow s).symbol.isStr = true ∧
    (normalizePortfolioRow s).company.isStr = true := by
  have key : ∀ a b : JSValue, strOrFalsy a = true → strOrFalsy b = true →
      (jsOr a (jsOr b (.str ""))).isStr = true := by
    intro a b ha hb
    simp only [strOrFalsy, Bool.or_eq_true, Bool.not_eq_true'] at ha hb
    unfold jsOr
    rcases ha with ha | ha
    · by_cases h : a.truthy
      · simpa [h] using ha
      · simp [h]
        rcases hb with hb | hb
        · by_cases hbt : b.truthy
          · simpa [hbt] using hb
          · simp [hbt, JSValue.isStr]
        · simp [hb, JSValue.isStr]
    · simp [ha]
      rcases hb with hb | hb
      · by_cases hbt : b.truthy
        · simpa [hbt] using hb
        · simp [hbt, JSValue.isStr]
      · simp [hb, JSValue.isStr]
  exact ⟨key (s "symbol") (s "ticker") h1 h2, key (s "company") (s "name") h3 h4⟩

/-- Witness for C5 (amended) at the empty mapping. -/
theorem normalizeRow_string_fields_witness :
    (normalizePortfolioRow emptyRow).symbol.isStr = true ∧
    (normalizePortfolioRow emptyRow).company.isStr = true :=
  normalizeRow_string_fields emptyRow (by decide) (by decide) (by decide) (by decide)

/-- A row supplying score-like and amount-like values only under
non-alias names. -/
def strayScoreRow : RawRow := fun k =>
  if k = "total_score" then .number (.finite 9)
  else if k = "amount" then .number (.finite 7)
  else .undefined

/-- C9: `score` and `investment_amount` probe no aliases — each equals
`num` of exactly its own key, so values supplied under any other name
are ignored and the field defaults to 0. -/
theorem normalizeRow_score_investment_no_alias (s : RawRow) :
    (normalizePortfolioRow s).score = num (s "score") ∧
    (normalizePortfolioRow s).investment_amount = num (s "investment_amount") ∧
    (s "score" = .undefined → (normalizePortfolioRow s).score = JSNumber.finite 0) ∧
    (s "investment_amount" = .undefined →
      (normalizePortfolioRow s).investment_amount = JSNumber.finite 0) := by
  refine ⟨rfl, rfl, fun h => ?_, fun h => ?_⟩ <;>
    simp [normalizePortfolioRow, h, num]

/-- Witness for C9 at a row carrying score-like values only under
non-alias names: both fields default to 0. -/
theorem normalizeRow_score_investment_no_alias_witness :
    (normalizePortfolioRow strayScoreRow).score = JSNumber.finite 0 ∧
    (normalizePortfolioRow strayScoreRow).investment_amount = JSNumber.finite 0 :=
  ⟨(normalizeRow_score_investment_no_alias strayScoreRow).2.2.1 (by decide),
   (normalizeRow_score_investment_no_alias strayScoreRow).2.2.2 (by decide)⟩

/-- C10: the `symbol`/`company` chains use `||`, skipping every falsy
present value — an empty-string `symbol` falls through to `ticker`,
and a falsy `company` falls through to `name` — while the numeric
chains use `??`: an explicit `null` `stop_loss` is skipped, but a
present `0` `price` stops the chain even though `0` is falsy. -/
theorem normalizeRow_falsy_fallthrough (s : RawRow) :
    (∀ t, s "symbol" = .str "" → s "ticker" = .str t → t ≠ "" →
      (normalizePortfolioRow s).symbol = .str t) ∧
    ((s "company").truthy = false →
      (normalizePortfolioRow s).company = jsOr (s "name") (.str "")) ∧
    (s "stop_loss" = .null →
      (normalizePortfolioRow s).stop_loss =
        num (jsCoalesce (s "stoploss") (jsCoalesce (s "sl")
          (jsCoalesce (s "stop") (.number (.finite 0)))))) ∧
    (s "price" = .number (.finite 0) →
      (normalizePortfolioRow s).price = JSNumber.finite 0) := by
  refine ⟨fun t h1 h2 h3 => ?_, fun h => ?_, fun h => ?_, fun h => ?_⟩
  · simp [normalizePortfolioRow, jsOr, h1, h2, JSValue.truthy, h3]
  · simp [normalizePortfolioRow, jsOr, h]
  · simp [normalizePortfolioRow, jsCoalesce, h, JSValue.nullish]
  · simp [normalizePortfolioRow, jsCoalesce, h, JSValue.nullish, num,
      JSNumber.isFiniteNum]

/-- A row exercising all four C10 conjuncts at once. -/
def falsyChainRow : RawRow := fun k =>
  if k = "symbol" then .str ""
  else if k = "ticker" then .str "TCS"
  else if k = "company" then .str ""
  else if k = "name" then .str "Tata"
  else if k = "stop_loss" then .null
  else if k = "sl" then .number (.finite 3)
  else if k = "price" then .number (.finite 0)
  else if k = "current_price" then .number (.finite 9)
  else .undefined

/-- Witness for C10 at `falsyChainRow`. -/
theorem normalizeRow_falsy_fallthrough_witness :
    (normalizePortfolioRow falsyChainRow).symbol = .str "TCS" ∧
    (normalizePortfolioRow falsyChainRow).company = jsOr (falsyChainRow "name") (.str "") ∧
    (normalizePortfolioRow falsyChainRow).stop_loss =
      num (jsCoalesce (falsyChainRow "stoploss") (jsCoalesce (falsyChainRow "sl")
        (jsCoalesce (falsyChainRow "stop") (.number (.finite 0))))) ∧
    (normalizePortfolioRow falsyChainRow).price = JSNumber.finite 0 :=
  ⟨(normalizeRow_falsy_fallthrough falsyChainRow).1 "TCS" (by decide) (by decide) (by decide),
   (normalizeRow_falsy_fallthrough falsyChainRow).2.1 (by decide),
   (normalizeRow_falsy_fallthrough falsyChainRow).2.2.1 (by decide),
   (normalizeRow_falsy_fallthrough falsyChainRow).2.2.2 (by decide)⟩

/-- C6: when the transport returns an envelope with `success = true`,
`execute` resolves to `{success:true, data}`, the `data` state becomes
the envelope's `data`, `loading` ends false, and `error` is null. -/
theorem execute_success (st : ApiState) (e : Envelope) (h : e.success = true) :
    executeRun st (.envelope e) =
      ({ data := some e.data, loading := false, error := none }, .ok e.data) := by
  simp [executeRun, beginExec, settleExec, h]

/-- Witness for C6 at the initial state and the envelope
`{success:true, data:{x:1}}`. -/
theorem execute_success_witness :
    executeRun initialApiState
        (.envelope { success := true, data := .obj [("x", .jnum 1)], error := none }) =
      ({ data := some (.obj [("x", .jnum 1)]), loading := false, error := none },
        .ok (.obj [("x", .jnum 1)])) :=
  execute_success initialApiState
    { success := true, data := .obj [("x", .jnum 1)], error := none } rfl

/-- An envelope whose `error` field is present but empty: `||` treats
the empty string as falsy, so the code substitutes the generic
message. -/
def emptyErrEnvelope : Envelope :=
  { success := false, data := .null, error := some "" }

/-- C7 counterexample: with `success` falsy and the envelope's `error`
field present but equal to `""`, `execute` resolves with the generic
unknown-error message, not the present `error` field's value. -/
theorem execute_failure_counterexample :
    (executeRun initialApiState (.envelope emptyErrEnvelope)).2 =
      ExecResult.fail unknownErrorMsg ∧
    (executeRun initialApiState (.envelope emptyErrEnvelope)).2 ≠
      ExecResult.fail "" := by
  constructor
  · rfl
  · intro h
    have : unknownErrorMsg = "" := by
      have h2 : ExecResult.fail unknownErrorMsg = ExecResult.fail "" := by
        rw [← h]; rfl
      injection h2
    exact absurd this (by decide)

/-- The failure message as the amended claim words it: the envelope's
`error` field when it is present and non-empty, else the generic
unknown-error message. -/
def envelopeErrMsgAmended (e : Envelope) : String :=
  match e.error with
  | some s => if s = "" then unknownErrorMsg else s
  | none => unknownErrorMsg

/-- C7 (amended): on every failure — the transport throwing, the body
failing to parse (both modelled by `TransportResult.throws`), or a
falsy `success` flag — `execute` resolves (never rejects) to
`{success:false, error}`, where for a falsy-success envelope the
message is the envelope's `error` field when present and non-empty and
the generic unknown-error message otherwise; `loading` ends false, the
`error` state holds the message, and `data` is unchanged. -/
theorem execute_failure (st : ApiState) :
    (∀ msg, executeRun st (.throws msg) =
      ({ st with loading := false, error := some msg }, .fail msg)) ∧
    (∀ e, e.success = false →
      executeRun st (.envelope e) =
        ({ st with loading := false, error := some (envelopeErrMsgAmended e) },
          .fail (envelopeErrMsgAmended e))) := by
  constructor
  · intro msg
    rfl
  · intro e h
    have hmsg : envelopeErrMsg e = envelopeErrMsgAmended e := by
      unfold envelopeErrMsg envelopeErrMsgAmended
      rfl
    simp [executeRun, beginExec, settleExec, h, hmsg]

/-- Witness for C7 (amended) at a thrown network failure and a
`{success:false, error:"bad symbol"}` envelope. -/
theorem execute_failure_witness :
    executeRun initialApiState (.throws "network down") =
      ({ initialApiState with loading := false, error := some "network down" },
        .fail "network down") ∧
    executeRun initialApiState
        (.envelope { success := false, data := .null, error := some "bad symbol" }) =
      ({ initialApiState with loading := false, error := some "bad symbol" },
        .fail "bad symbol") :=
  ⟨(execute_failure initialApiState).1 "network down",
   (execute_failure initialApiState).2
     { success := false, data := .null, error := some "bad symbol" } rfl⟩

/-- C8: responses are applied in settlement order, not invocation
order — with two overlapping `execute` calls whose transports both
succeed and the second settling first, the state after the second
settlement shows the second call's data, and the final state shows the
first call's data (the stale overwrite); no cancellation prevents the
late settlement from applying. -/
theorem execute_stale_overwrite (st : ApiState) (e1 e2 : Envelope)
    (h1 : e1.success = true) (h2 : e2.success = true) :
    (staleOverwriteRun st (.envelope e1) (.envelope e2)).1.data = some e2.data ∧
    (staleOverwriteRun st (.envelope e1) (.envelope e2)).2.data = some e1.data := by
  constructor <;> simp [staleOverwriteRun, beginExec, settleExec, h1, h2]

/-- Witness for C8 with two distinct successful payloads. -/
theorem execute_stale_overwrite_witness :
    (staleOverwriteRun initialApiState
        (.envelope { success := true, data := .jstr "first", error := none })
        (.envelope { success := true, data := .jstr "second", error := none })).1.data =
      some (.jstr "second") ∧
    (staleOverwriteRun initialApiState
        (.envelope { success := true, data := .jstr "first", error := none })
        (.envelope { success := true, data := .jstr "second", error := none })).2.data =
      some (.jstr "first") :=
  execute_stale_overwrite initialApiState
    { success := true, data := .jstr "first", error := none }
    { success := true, data := .jstr "second", error := none } rfl rfl
